import Mathlib

/-!
Shallow embedding of `src/ioos_glider.py` (glider trajectory NetCDF writer,
reader helpers and GeoJSON trajectory projector).

Modelling conventions:
* Machine float64 values are modelled as rationals; the comparisons the code
  performs (`< 1000`, equality with fill sentinels) are exact on the values
  involved, so this is faithful.
* A numpy masked array element is `Option Rat`: `none` is a masked/missing
  cell.  Taking `.data` of a masked cell yields the netCDF float64 default
  fill value, as it does for arrays read back from a netCDF file.
* 1-D and 2-D numpy arrays are `Arr`; a 2-D array is stored as its list of
  trajectory columns together with its leading-axis (time) length, matching
  how the projector consumes it (`a[::stride, i]`).
* Timestamp formatting (`strftime`, `num2date`/`date2num` unit conversion)
  is carried as an explicit function parameter `fmt`/`tfmt`; the claims only
  move formatted values around, never inspect them.
* `Dataset(filename, 'w')` is modelled by the `artifactCreated` flag of the
  writer outcome: it records that the destination container object was
  created (the file truncated/created on disk) at that point of the call.
* Per-variable attribute dictionaries (constant metadata) are not part of any
  claim and are not modelled; the `_FillValue` attribute, element type fill
  and stored data of every variable are.
-/

namespace IoosGlider

/-- netCDF default fill value for `f8` (9.969209968386869e+36, written out
as the integer 9969209968386869 followed by 21 zeros). -/
def fillF8 : ℚ := 9969209968386869000000000000000000000

/-- netCDF default fill value for `i1` (NC_FILL_BYTE = -127). -/
def fillI1 : ℚ := -127

/-- netCDF default fill value for `i2` (NC_FILL_SHORT = -32767). -/
def fillI2 : ℚ := -32767

/-- A 1-D or 2-D numpy array.  A 2-D array of shape `(nrows, ncols)` is kept
as `two nrows cols` where `cols` are its `ncols` trajectory columns (each of
length `nrows` for a rectangular array). -/
inductive Arr (α : Type) where
  | one (xs : List α)
  | two (nrows : ℕ) (cols : List (List α))
deriving DecidableEq

/-- `a.shape[0]`: the leading-axis length. -/
def Arr.shape0 {α : Type} : Arr α → ℕ
  | .one xs => xs.length
  | .two n _ => n

/-- `a.shape[1]` when the array is 2-D. -/
def Arr.shape1 {α : Type} : Arr α → Option ℕ
  | .one _ => none
  | .two _ cols => some cols.length

/-- `len(a.shape)`: the number of dimensions. -/
def Arr.ndim {α : Type} : Arr α → ℕ
  | .one _ => 1
  | .two _ _ => 2

/-- All elements of the array, column by column for a 2-D array. -/
def Arr.elems {α : Type} : Arr α → List α
  | .one xs => xs
  | .two _ cols => cols.flatten

/-- `a[:, i]`: the `i`-th trajectory column of a 2-D array (index error on a
1-D array or an out-of-range column, as in numpy). -/
def Arr.col {α : Type} : Arr α → ℕ → Option (List α)
  | .one _, _ => none
  | .two _ cols, i => cols.get? i

/-- Helper for the Python slice `xs[::s]`: the countdown `k` is the number
of elements still to skip before the next kept one. -/
def everyNthAux {α : Type} (s : ℕ) : List α → ℕ → List α
  | [], _ => []
  | x :: rest, 0 => x :: everyNthAux s rest (s - 1)
  | _ :: rest, k + 1 => everyNthAux s rest k

/-- Python slice `xs[::s]` with step `s ≥ 1`: every `s`-th element starting
from index 0. -/
def everyNth {α : Type} (xs : List α) (s : ℕ) : List α :=
  everyNthAux s xs 0

/-- `.data` of a masked-array cell: a masked cell reads back as the float64
fill value. -/
def dataVal : Option ℚ → ℚ
  | none => fillF8
  | some x => x

/-! ## Reader / projector side (`get_time_coverage`, `get_stride`, `geojson`) -/

/-- An opened netCDF container as the read path sees it: its global
attributes (what `getncattrs(nc)` returns) and the variables the reader and
projector touch.  A `none` field is an absent variable. -/
structure NCFile where
  attrs : List (String × String)
  lonV : Option (Arr (Option ℚ))
  latV : Option (Arr (Option ℚ))
  trajV : Option (List ℚ)
  timeV : Option (List ℚ)
  oceanTimeV : Option (List ℚ)

/-- Errors of the read path: a required variable missing from
`nc.variables` (a Python `KeyError`) or an out-of-range index. -/
inductive GeoErr where
  | missingVariable (name : String)
  | indexError
deriving DecidableEq

/-- Time-variable name resolution of `get_time_coverage`:
`if "ocean_time" in nc.variables: tname = "ocean_time"` then
`if "time" in nc.variables: tname = "time"` — the second check overwrites
the first, so `time` wins whenever it is present. -/
def resolveTimeName (nc : NCFile) : Option String :=
  let t := if nc.oceanTimeV.isSome then some "ocean_time" else none
  if nc.timeV.isSome then some "time" else t

/-- The data of the resolved time variable. -/
def timeDataOf (nc : NCFile) : String → Option (List ℚ)
  | "time" => nc.timeV
  | "ocean_time" => nc.oceanTimeV
  | _ => none

/-- `get_time_coverage(nc, stride)`: formatted first and last strided time
samples, or `(None, None)` when no time variable exists.  `tfmt` stands for
`num2date(..., units).strftime('%Y-%m-%d %H:%M UTC')`. -/
def get_time_coverage (tfmt : ℚ → String) (nc : NCFile) (stride : ℕ) :
    Option String × Option String :=
  match resolveTimeName nc with
  | none => (none, none)
  | some tname =>
    match timeDataOf nc tname with
    | none => (none, none)
    | some td =>
      let s := everyNth td stride
      (s.head?.map tfmt, s.getLast?.map tfmt)

/-- The stride rule of `get_stride`: 200 when the leading axis of `lon` is
longer than 1000 samples, else 1. -/
def strideFor (n : ℕ) : ℕ :=
  if 1000 < n then 200 else 1

/-- `get_stride(nc)`: reads `nc.variables["lon"].shape[0]` (a `KeyError`
when `lon` is absent). -/
def get_stride (nc : NCFile) : Except GeoErr ℕ :=
  match nc.lonV with
  | none => .error (.missingVariable "lon")
  | some lonA => .ok (strideFor lonA.shape0)

/-- Replace the value at a key, or append the pair when the key is absent
(Python `d[k] = v`). -/
def setKV {α : Type} (l : List (String × α)) (k : String) (v : α) :
    List (String × α) :=
  if l.any (fun kv => kv.1 == k) then
    l.map (fun kv => if kv.1 == k then (k, v) else kv)
  else l ++ [(k, v)]

/-- Assoc-list lookup (Python `d[k]` / `d.get(k)`). -/
def lookupA {α : Type} (l : List (String × α)) (k : String) : Option α :=
  (l.find? (fun kv => kv.1 == k)).map (fun kv => kv.2)

/-- `k in d` for an assoc list. -/
def hasKey {α : Type} (l : List (String × α)) (k : String) : Bool :=
  l.any (fun kv => kv.1 == k)

/-- The per-feature property dict of `geojson`: `s = getncattrs(nc)`, then
when `time_coverage_start` or `time_coverage_end` is absent both keys are
set from `get_time_coverage(nc, stride)`.  Attribute values lift to
`Option String` because the derived coverage entries can be `None`. -/
def propsOf (tfmt : ℚ → String) (nc : NCFile) (stride : ℕ) :
    List (String × Option String) :=
  let s := nc.attrs.map (fun kv => (kv.1, some kv.2))
  if !(hasKey s "time_coverage_start") || !(hasKey s "time_coverage_end") then
    let ab := get_time_coverage tfmt nc stride
    setKV (setKV s "time_coverage_start" ab.1) "time_coverage_end" ab.2
  else s

/-- The id of an emitted GeoJSON feature: `s.get("id", None)` in the 1-D
branch, `nc.variables["trajectory"][i]` or the column index in the 2-D
branch. -/
inductive FeatId where
  | attrId (v : Option String)
  | trajId (v : ℚ)
  | colId (i : ℕ)
deriving DecidableEq

/-- One emitted GeoJSON feature: id, LineString coordinates, properties. -/
structure Feat where
  fid : FeatId
  geometry : List (ℚ × ℚ)
  props : List (String × Option String)
deriving DecidableEq

instance : Inhabited Feat := ⟨⟨.colId 0, [], []⟩⟩

/-- One emitted GeoJSON document: a single `Feature` for a 1-D container, a
`FeatureCollection` for a 2-D one. -/
inductive GeoOut where
  | single (f : Feat)
  | collection (fs : List Feat)
deriving DecidableEq

/-- Per-column coordinate extraction of the 2-D branch:
`mask = lon.mask == False`, applied positionally to `lon.data` and `lat`
(`lon[mask]`, `lat[mask]`), then `subbool = lon[mask] < 1000` applied to
both (`lon[mask][subbool]`, `lat[mask][subbool]`), zipped. -/
def maskCoords (lonS : List (Option ℚ)) (latD : List ℚ) : List (ℚ × ℚ) :=
  let kept := (lonS.zip latD).filterMap (fun p => p.1.map (fun lv => (lv, p.2)))
  kept.filter (fun p => p.1 < 1000)

/-- Loop body of the 2-D branch of `geojson` for trajectory column `i`:
strided column of `lon` and `lat`, mask/sentinel filtering, feature id from
the `trajectory` variable when present, else the column index. -/
def featureForCol (tfmt : ℚ → String) (nc : NCFile) (stride : ℕ) (i : ℕ) :
    Except GeoErr Feat := do
  let lonA ← match nc.lonV with
    | some a => pure a
    | none => throw (.missingVariable "lon")
  let lonCol ← match lonA.col i with
    | some c => pure c
    | none => throw .indexError
  let lonS := everyNth lonCol stride
  let latA ← match nc.latV with
    | some a => pure a
    | none => throw (.missingVariable "lat")
  let latCol ← match latA.col i with
    | some c => pure c
    | none => throw .indexError
  let latD := (everyNth latCol stride).map dataVal
  let coords := maskCoords lonS latD
  let s := propsOf tfmt nc stride
  match nc.trajV with
  | some tr =>
    match tr.get? i with
    | some tv => pure ⟨.trajId tv, coords, s⟩
    | none => throw .indexError
  | none => pure ⟨.colId i, coords, s⟩

/-- Row-strided then row-major-flattened view of an array, as
`a[::stride].flatten()` behaves in the 1-D branch (`a[::stride]` strides the
leading axis; for a 1-D array this is just `everyNth`). -/
def stridedFlat (a : Arr (Option ℚ)) (stride : ℕ) : List (Option ℚ) :=
  match a with
  | .one xs => everyNth xs stride
  | .two n cols =>
    (everyNth (List.range n) stride).flatMap
      (fun r => cols.filterMap (fun c => c.get? r))

/-- `geojson(dap)` without its Flask/JSONP envelope: stride selection, the
2-D branch (one feature per trajectory column, lon-mask applied to the
(lon, lat) pairs), and the 1-D branch, which filters the strided `lon.data`
by `lon < 1000` and the strided `lat.data` by `lat < 1000` independently
and zips the two filtered sequences. -/
def geojson (tfmt : ℚ → String) (nc : NCFile) : Except GeoErr GeoOut := do
  let stride ← get_stride nc
  let lonA ← match nc.lonV with
    | some a => pure a
    | none => throw (.missingVariable "lon")
  match lonA with
  | .two _ cols => do
    let fs ← (List.range cols.length).mapM (featureForCol tfmt nc stride)
    pure (.collection fs)
  | .one xs => do
    let lonD := (everyNth xs stride).map dataVal
    let latA ← match nc.latV with
      | some a => pure a
      | none => throw (.missingVariable "lat")
    let latD := (stridedFlat latA stride).map dataVal
    let coords := (lonD.filter (fun x => x < 1000)).zip
                  (latD.filter (fun x => x < 1000))
    let s := propsOf tfmt nc stride
    let fid : FeatId := .attrId ((lookupA s "id").getD none)
    pure (.single ⟨fid, coords, s⟩)

/-! ## Writer side (`writer_0_0`) -/

/-- A global-attribute value: a string (provenance text, formatted dates) or
a number (geospatial extrema). -/
inductive AttrV where
  | str (s : String)
  | num (q : ℚ)
deriving DecidableEq

/-- The caller-supplied arrays of `writer_0_0`, in the order of its
signature; the eleven `*_qcdata` keyword arrays default to `None`, and
`kwargs` are the variadic global-attribute overrides. -/
structure WriterArgs where
  timedata : List ℚ
  time_uvdata : List ℚ
  trajectorydata : List ℚ
  segment_iddata : Arr ℚ
  profile_iddata : Arr ℚ
  depthdata : Arr ℚ
  latdata : Arr ℚ
  londata : Arr ℚ
  pressuredata : Arr ℚ
  conductivitydata : Arr ℚ
  densitydata : Arr ℚ
  salinitydata : Arr ℚ
  temperaturedata : Arr ℚ
  udata : Arr ℚ
  vdata : Arr ℚ
  lat_uvdata : Arr ℚ
  lon_uvdata : Arr ℚ
  time_qcdata : Option (Arr ℚ) := none
  u_qcdata : Option (Arr ℚ) := none
  v_qcdata : Option (Arr ℚ) := none
  depth_qcdata : Option (Arr ℚ) := none
  lat_qcdata : Option (Arr ℚ) := none
  lon_qcdata : Option (Arr ℚ) := none
  pressure_qcdata : Option (Arr ℚ) := none
  conductivity_qcdata : Option (Arr ℚ) := none
  density_qcdata : Option (Arr ℚ) := none
  salinity_qcdata : Option (Arr ℚ) := none
  temperature_qcdata : Option (Arr ℚ) := none
  kwargs : List (String × AttrV) := []
deriving DecidableEq

/-- `req_time_vars`: the eight required per-time arrays plus every supplied
QC array of `quality_vars` (`time_qcdata`, `u_qcdata`, `v_qcdata` are never
appended, and `segment_iddata` / `profile_iddata` are never listed). -/
def req_time_vars (a : WriterArgs) : List (Arr ℚ) :=
  [a.depthdata, a.latdata, a.londata, a.pressuredata, a.conductivitydata,
   a.densitydata, a.salinitydata, a.temperaturedata] ++
  ([a.depth_qcdata, a.lat_qcdata, a.lon_qcdata, a.pressure_qcdata,
    a.conductivity_qcdata, a.density_qcdata, a.salinity_qcdata,
    a.temperature_qcdata].filterMap id)

/-- `req_uv_vars`: the four required per-`time_uv` arrays. -/
def req_uv_vars (a : WriterArgs) : List (Arr ℚ) :=
  [a.udata, a.vdata, a.lat_uvdata, a.lon_uvdata]

/-- The two `assert` loops: every required time-class array's first-axis
length equals `len(timedata)` and every uv array's equals
`len(time_uvdata)`.  Nothing checks a second axis. -/
def shapesOk (a : WriterArgs) : Bool :=
  (req_time_vars a).all (fun v => v.shape0 == a.timedata.length) &&
  (req_uv_vars a).all (fun v => v.shape0 == a.time_uvdata.length)

/-- `dim_tuple`: `('time',)`, or `('time', 'trajectory')` when
`len(trajectorydata) > 1`. -/
def dimTupleOf (t : ℕ) : List String :=
  if 1 < t then ["time", "trajectory"] else ["time"]

/-- `uv_tuple`: `('time_uv',)`, or `('time_uv', 'trajectory')` when
`len(trajectorydata) > 1`. -/
def uvTupleOf (t : ℕ) : List String :=
  if 1 < t then ["time_uv", "trajectory"] else ["time_uv"]

/-- Declared sizes matching `dim_tuple`. -/
def sizesTime (l t : ℕ) : List ℕ :=
  if 1 < t then [l, t] else [l]

/-- Declared sizes matching `uv_tuple`. -/
def sizesUv (luv t : ℕ) : List ℕ :=
  if 1 < t then [luv, t] else [luv]

/-- The content of a freshly created, never written netCDF variable with the
given dimension sizes: every cell holds the type's fill value. -/
def initFill (sizes : List ℕ) (fill : ℚ) : Arr ℚ :=
  match sizes with
  | [] => .one [fill]
  | [s] => .one (List.replicate s fill)
  | s0 :: s1 :: _ => .two s0 (List.replicate s1 (List.replicate s0 fill))

/-- A committed netCDF variable: its name, dimension tuple, declared
`_FillValue` attribute (absent for the coordinate variables) and stored
data. -/
structure NCVar where
  name : String
  dims : List String
  fillAttr : Option ℚ
  content : Arr ℚ
deriving DecidableEq

/-- `nc.createVariable(...)` followed by an optional `var[:] = data`: a
written variable stores the supplied array, an unwritten one reads back as
all type-fill. -/
def mkVar (name : String) (dims : List String) (sizes : List ℕ)
    (fillAttr : Option ℚ) (typeFill : ℚ) (data : Option (Arr ℚ)) : NCVar :=
  ⟨name, dims, fillAttr, data.getD (initFill sizes typeFill)⟩

/-- The committed container: dimensions, merged global attributes and the
variables in creation order. -/
structure NCContainerW where
  dims : List (String × ℕ)
  gattrs : List (String × AttrV)
  vars : List NCVar
deriving DecidableEq

/-- The maximum of a numpy array (`a.max()`); 0 stands in for the error an
empty array would raise. -/
def amax (a : Arr ℚ) : ℚ :=
  match a.elems with
  | [] => 0
  | x :: xs => xs.foldl max x

/-- The minimum of a numpy array (`a.min()`). -/
def amin (a : Arr ℚ) : ℚ :=
  match a.elems with
  | [] => 0
  | x :: xs => xs.foldl min x

/-- The `global_attributes` dict literal of `writer_0_0`, in source order.
`fmt` is `.strftime('%Y-%m-%d %H:%M UTC')` on a `timedata` element, `now`
is `t.ctime(t.time())`.  Note `time_coverage_end` takes `timedata[0]` and
`time_coverage_start` takes `timedata[-1]` (`timedata` must be nonempty, as
the source would raise `IndexError` otherwise). -/
def globalAttributesBase (fmt : ℚ → String) (now : String) (a : WriterArgs) :
    List (String × AttrV) :=
  [("Conventions", .str "CF-1.6"),
   ("Metadata_Conventions", .str "Unidata Dataset Discovery v1.0"),
   ("acknowledgment", .str "This deployment partially supported by ..."),
   ("cdm_data_type", .str "Trajectory"),
   ("comment", .str "This file is intended to be used as a template only.  Data is not to be used for scientific purposes."),
   ("contributor_name", .str "Scott Glenn, Oscar Schofield, John Kerfoot"),
   ("contributor_role", .str "Principal Investigator, Principal Investigator, Data Manager"),
   ("creator_email", .str "kerfoot@marine.rutgers.edu"),
   ("creator_name", .str "John Kerfoot"),
   ("creator_url", .str "http://marine.rutgers.edu/cool/auvs"),
   ("date_created", .str now),
   ("date_issued", .str now),
   ("date_modified", .str now),
   ("featureType", .str "trajectory"),
   ("format_version", .str "IOOS_Glider_NetCDF_Trajectory_Template_v0.0"),
   ("geospatial_lat_max", .num (amax a.latdata)),
   ("geospatial_lat_min", .num (amin a.latdata)),
   ("geospatial_lat_resolution", .str "point"),
   ("geospatial_lat_units", .str "degrees_north"),
   ("geospatial_lon_max", .num (amax a.londata)),
   ("geospatial_lon_min", .num (amin a.londata)),
   ("geospatial_lon_resolution", .str "point"),
   ("geospatial_lon_units", .str "degrees_east"),
   ("geospatial_vertical_max", .num (amax a.depthdata)),
   ("geospatial_vertical_min", .num (amin a.depthdata)),
   ("geospatial_vertical_positive", .str "down"),
   ("geospatial_vertical_resolution", .str "point"),
   ("geospatial_vertical_units", .str "meters"),
   ("history", .str ("Created on " ++ now)),
   ("id", .str ""),
   ("institution", .str "Institute of Marine & Coastal Sciences, Rutgers University"),
   ("keywords", .str "Oceans > Ocean Pressure > Water Pressure, Oceans > Ocean Temperature > Water Temperature, Oceans > Salinity/Density > Conductivity, Oceans > Salinity/Density > Density, Oceans > Salinity/Density > Salinity"),
   ("keywords_vocabulary", .str "GCMD Science Keywords"),
   ("license", .str "This data may be redistributed and used without restriction."),
   ("metadata_link", .str ""),
   ("naming_authority", .str "edu.rutgers.marine"),
   ("processing_level", .str "Written to file from ioos_glider.writer_0_0()"),
   ("project", .str "Deployment not project based"),
   ("publisher_email", .str "kerfoot@marine.rutgers.edu"),
   ("publisher_name", .str "John Kerfoot"),
   ("publisher_url", .str "http://marine.rutgers.edu/cool/auvs"),
   ("references", .str ""),
   ("sea_name", .str ""),
   ("standard_name_vocabulary", .str "CF-v25"),
   ("source", .str "Observational data from a profiling glider"),
   ("summary", .str "The Rutgers University Coastal Ocean Observation Lab has deployed autonomous underwater gliders around the world since 1990. Gliders are small, free-swimming, unmanned vehicles that use changes in buoyancy to move vertically and horizontally through the water column in a saw-tooth pattern. They are deployed for days to several months and gather detailed information about the physical, chemical and biological processes of the world\x27s The Slocum glider was designed and oceans. built by Teledyne Webb Research Corporation, Falmouth, MA, USA."),
   ("time_coverage_end", .str (fmt (a.timedata.headD 0))),
   ("time_coverage_resolution", .str "point"),
   ("time_coverage_start", .str (fmt (a.timedata.getLastD 0))),
   ("title", .str "Glider Dataset")]

/-- `for key in kwargs.iterkeys(): global_attributes[key] = kwargs[key]` —
caller overrides win on key collision.  (The source then writes the merged
mapping in sorted key order; the order does not change the mapping and is
not modelled.) -/
def mergeKw (base : List (String × AttrV)) (kwargs : List (String × AttrV)) :
    List (String × AttrV) :=
  kwargs.foldl (fun acc kv => setKV acc kv.1 kv.2) base

/-- The container committed by `writer_0_0` when the asserts pass: the three
dimensions, the merged global attributes, and the thirty variables in
creation order with their dimension tuples, `_FillValue` attributes and
data.  (`date2num` unit conversion of `time`/`time_uv` is the identity
here, per the `fmt` convention.) -/
def buildContainer (fmt : ℚ → String) (now : String) (a : WriterArgs) :
    NCContainerW :=
  let l := a.timedata.length
  let t := a.trajectorydata.length
  let luv := a.time_uvdata.length
  let dimT := dimTupleOf t
  let szT := sizesTime l t
  let dimU := uvTupleOf t
  let szU := sizesUv luv t
  { dims := [("time", l), ("trajectory", t), ("time_uv", luv)]
    gattrs := mergeKw (globalAttributesBase fmt now a) a.kwargs
    vars :=
      [mkVar "time" ["time"] [l] none fillF8 (some (.one a.timedata)),
       mkVar "time_qc" ["time"] [l] (some fillI1) fillI1 a.time_qcdata,
       mkVar "time_uv" ["time_uv"] [luv] none fillF8 (some (.one a.time_uvdata)),
       mkVar "trajectory" ["trajectory"] [t] none fillI2 (some (.one a.trajectorydata)),
       mkVar "segment_id" dimT szT (some fillI2) fillI2 (some a.segment_iddata),
       mkVar "profile_id" dimT szT (some fillI2) fillI2 (some a.profile_iddata),
       mkVar "depth" dimT szT (some fillF8) fillF8 (some a.depthdata),
       mkVar "depth_qc" dimT szT (some fillI1) fillI1 a.depth_qcdata,
       mkVar "lat" dimT szT (some fillF8) fillF8 (some a.latdata),
       mkVar "lat_qc" dimT szT (some fillI1) fillI1 a.lat_qcdata,
       mkVar "lon" dimT szT (some fillF8) fillF8 (some a.londata),
       mkVar "lon_qc" dimT szT (some fillI1) fillI1 a.lon_qcdata,
       mkVar "pressure" dimT szT (some fillF8) fillF8 (some a.pressuredata),
       mkVar "pressure_qc" dimT szT (some fillI1) fillI1 a.pressure_qcdata,
       mkVar "conductivity" dimT szT (some fillF8) fillF8 (some a.conductivitydata),
       mkVar "conductivity_qc" dimT szT (some fillI1) fillI1 a.conductivity_qcdata,
       mkVar "density" dimT szT (some fillF8) fillF8 (some a.densitydata),
       mkVar "density_qc" dimT szT (some fillI1) fillI1 a.density_qcdata,
       mkVar "salinity" dimT szT (some fillF8) fillF8 (some a.salinitydata),
       mkVar "salinity_qc" dimT szT (some fillI1) fillI1 a.salinity_qcdata,
       mkVar "temperature" dimT szT (some fillF8) fillF8 (some a.temperaturedata),
       mkVar "temperature_qc" dimT szT (some fillI1) fillI1 a.temperature_qcdata,
       mkVar "lat_uv" dimU szU (some fillF8) fillF8 (some a.lat_uvdata),
       mkVar "lon_uv" dimU szU (some fillF8) fillF8 (some a.lon_uvdata),
       mkVar "u" dimU szU (some fillF8) fillF8 (some a.udata),
       mkVar "u_qc" dimU szU (some fillI1) fillI1 a.u_qcdata,
       mkVar "v" dimU szU (some fillF8) fillF8 (some a.vdata),
       mkVar "v_qc" dimU szU (some fillI1) fillI1 a.v_qcdata,
       mkVar "platform" [] [] none fillI1 none,
       mkVar "instrument_ctd" [] [] none fillI1 none] }

/-- The write error: an `assert` of the shape-validation loops failing. -/
inductive WriteErr where
  | ShapeMismatch
deriving DecidableEq

/-- Outcome of one `writer_0_0` call: the result, and whether the
destination container object was created during the call. -/
structure WriteOutcome where
  result : Except WriteErr NCContainerW
  artifactCreated : Bool

/-- `writer_0_0`: `nc = Dataset(filename, 'w', ...)` runs first — the
destination is created and truncated before any validation — then the shape
asserts, then dimension/variable creation, data writes and `nc.close()`. -/
def writer_0_0 (fmt : ℚ → String) (now : String) (a : WriterArgs) :
    WriteOutcome :=
  let created := true
  if shapesOk a then
    ⟨.ok (buildContainer fmt now a), created⟩
  else
    ⟨.error .ShapeMismatch, created⟩

/-- Which writer argument feeds a given QC variable. -/
def qcInput (a : WriterArgs) : String → Option (Arr ℚ)
  | "time_qc" => a.time_qcdata
  | "depth_qc" => a.depth_qcdata
  | "lat_qc" => a.lat_qcdata
  | "lon_qc" => a.lon_qcdata
  | "pressure_qc" => a.pressure_qcdata
  | "conductivity_qc" => a.conductivity_qcdata
  | "density_qc" => a.density_qcdata
  | "salinity_qc" => a.salinity_qcdata
  | "temperature_qc" => a.temperature_qcdata
  | "u_qc" => a.u_qcdata
  | "v_qc" => a.v_qcdata
  | _ => none

/-- The names of the eleven QC variables. -/
def qcNames : List String :=
  ["time_qc", "depth_qc", "lat_qc", "lon_qc", "pressure_qc",
   "conductivity_qc", "density_qc", "salinity_qc", "temperature_qc",
   "u_qc", "v_qc"]

/-- The observational time-class variables: per-time-sample data variables
created over `dim_tuple` (the dimension-coordinate variable `time` and its
QC sidecar stay 1-D over `('time',)`). -/
def timeClassNames : List String :=
  ["segment_id", "profile_id", "depth", "depth_qc", "lat", "lat_qc",
   "lon", "lon_qc", "pressure", "pressure_qc", "conductivity",
   "conductivity_qc", "density", "density_qc", "salinity", "salinity_qc",
   "temperature", "temperature_qc"]

/-- The time_uv-class variables: created over `uv_tuple`. -/
def uvClassNames : List String :=
  ["lat_uv", "lon_uv", "u", "u_qc", "v", "v_qc"]

/-- The declared shape of a variable in a container: its dimension tuple
mapped through the container's dimension sizes. -/
def varShape (c : NCContainerW) (v : NCVar) : List ℕ :=
  v.dims.map (fun d => ((c.dims.find? (fun kv => kv.1 == d)).map
    (fun kv => kv.2)).getD 0)

/-- The feature id rule of the 2-D branch: the `i`-th entry of the
`trajectory` variable when present, else the column index. -/
def colFeatId (tv : Option (List ℚ)) (i : ℕ) : FeatId :=
  match tv with
  | some tr => .trajId (tr.getD i 0)
  | none => .colId i

/-! ## Concrete instances used by counterexamples and witnesses -/

/-- A trivial timestamp formatter standing in for `strftime`. -/
def fmt0 : ℚ → String := fun _ => ""

/-- A minimal valid writer call: one time sample, one trajectory, one
current estimate, all QC arrays omitted. -/
def sampleArgs : WriterArgs where
  timedata := [0]
  time_uvdata := [0]
  trajectorydata := [1]
  segment_iddata := .one [1]
  profile_iddata := .one [1]
  depthdata := .one [5]
  latdata := .one [10]
  londata := .one [20]
  pressuredata := .one [1]
  conductivitydata := .one [1]
  densitydata := .one [1020]
  salinitydata := .one [30]
  temperaturedata := .one [15]
  udata := .one [0]
  vdata := .one [0]
  lat_uvdata := .one [10]
  lon_uvdata := .one [20]

/-- `sampleArgs` with a `depth` array of first-axis length 2 against a time
dimension of length 1: the first shape assert fails. -/
def argsBad : WriterArgs :=
  { sampleArgs with depthdata := .one [5, 6] }

/-- Two trajectories but every 2-D data array carries a single trajectory
column: second axes disagree with the trajectory count while every
first-axis length matches. -/
def args10 : WriterArgs :=
  { sampleArgs with trajectorydata := [1, 2], depthdata := .two 1 [[5]] }

/-- Two time samples (`0` then `7`), to observe which end of `timedata`
feeds which coverage attribute. -/
def args9 : WriterArgs :=
  { sampleArgs with
    timedata := [0, 7]
    segment_iddata := .one [1, 1]
    profile_iddata := .one [1, 1]
    depthdata := .one [5, 6]
    latdata := .one [10, 11]
    londata := .one [20, 21]
    pressuredata := .one [1, 2]
    conductivitydata := .one [1, 2]
    densitydata := .one [1020, 1021]
    salinitydata := .one [30, 31]
    temperaturedata := .one [15, 16] }

/-- The `depth` variable of the container committed for `sampleArgs`. -/
def depthVarSample : NCVar :=
  mkVar "depth" (dimTupleOf sampleArgs.trajectorydata.length)
    (sizesTime sampleArgs.timedata.length sampleArgs.trajectorydata.length)
    (some fillF8) fillF8 (some sampleArgs.depthdata)

/-- The `depth_qc` variable of the container committed for `sampleArgs`
(whose `depth_qcdata` is omitted). -/
def depthQcVarSample : NCVar :=
  mkVar "depth_qc" (dimTupleOf sampleArgs.trajectorydata.length)
    (sizesTime sampleArgs.timedata.length sampleArgs.trajectorydata.length)
    (some fillI1) fillI1 sampleArgs.depth_qcdata

/-- A container holding both an `ocean_time` and a `time` variable. -/
def ncBoth : NCFile where
  attrs := []
  lonV := none
  latV := none
  trajV := none
  timeV := some [3]
  oceanTimeV := some [5]

/-- A 1-D container whose `lon` holds the sentinel scenario
`[10, 20, 1500, 30]` with distinct latitudes `[1, 2, 3, 4]`. -/
def nc1 : NCFile where
  attrs := []
  lonV := some (.one [some 10, some 20, some 1500, some 30])
  latV := some (.one [some 1, some 2, some 3, some 4])
  trajV := none
  timeV := none
  oceanTimeV := none

/-- A container whose global attributes already declare both coverage keys
(and which also has a `time` variable a derivation could read). -/
def nc8 : NCFile where
  attrs := [("time_coverage_start", "2020-01-01 00:00 UTC"),
            ("time_coverage_end", "2020-01-02 00:00 UTC"),
            ("id", "ru29-test")]
  lonV := some (.one [some 20])
  latV := some (.one [some 10])
  trajV := none
  timeV := some [0, 7]
  oceanTimeV := none

/-- A 1-D container with all longitudes in range but a masked latitude:
the `lat < 1000` filter drops the masked cell (its `.data` is the f8 fill),
shifting the positional pairing of every later coordinate. -/
def nc1x : NCFile where
  attrs := []
  lonV := some (.one [some 10, some 20, some 30])
  latV := some (.one [some 1, none, some 3])
  trajV := none
  timeV := none
  oceanTimeV := none

/-- A 1500-sample 1-D `lon` container for the stride law. -/
def nc1500 : NCFile where
  attrs := []
  lonV := some (.one (List.replicate 1500 (some 20)))
  latV := some (.one (List.replicate 1500 (some 10)))
  trajV := none
  timeV := none
  oceanTimeV := none

/-- A two-column 2-D container with a `trajectory` variable, one masked
cell and one out-of-range longitude. -/
def nc6 : NCFile where
  attrs := []
  lonV := some (.two 2 [[some 1, some 1500], [some 2, none]])
  latV := some (.two 2 [[some 5, some 6], [some 7, some 8]])
  trajV := some [41, 42]
  timeV := none
  oceanTimeV := none

/-! ## Helper lemmas -/

/-- The countdown helper keeps `ceil((len - k)/s)` elements for `s ≥ 1`. -/
theorem everyNthAux_length {α : Type} (s : ℕ) (hs : 1 ≤ s) (xs : List α) :
    ∀ k : ℕ, (everyNthAux s xs k).length = (xs.length - k + s - 1) / s := by
  induction xs with
  | nil =>
    intro k
    simp [everyNthAux, Nat.div_eq_of_lt (show s - 1 < s by omega),
      Nat.zero_sub]
  | cons x rest ih =>
    intro k
    cases k with
    | zero =>
      rw [everyNthAux, List.length_cons, ih (s - 1), List.length_cons]
      rcases le_or_lt (s - 1) rest.length with h | h
      · have h1 : rest.length - (s - 1) + s - 1 = rest.length := by omega
        have h2 : rest.length + 1 - 0 + s - 1 = rest.length + s := by omega
        rw [h1, h2, Nat.add_div_right _ (by omega)]
      · have h1 : rest.length - (s - 1) + s - 1 = s - 1 := by omega
        have h2 : rest.length + 1 - 0 + s - 1 = rest.length + s := by omega
        rw [h1, h2, Nat.add_div_right _ (by omega),
            Nat.div_eq_of_lt (by omega), Nat.div_eq_of_lt (by omega)]
    | succ k =>
      rw [everyNthAux, ih k, List.length_cons]
      have h1 : rest.length + 1 - (k + 1) = rest.length - k := by omega
      rw [h1]

/-- `xs[::s]` has `ceil(len(xs)/s)` elements for a step `s ≥ 1`. -/
theorem everyNth_length {α : Type} (xs : List α) (s : ℕ) (hs : 1 ≤ s) :
    (everyNth xs s).length = (xs.length + s - 1) / s := by
  rw [everyNth, everyNthAux_length s hs xs 0, Nat.sub_zero]

/-- `mapM` over `Except` succeeds pointwise: if the body sends every element
`a` to `.ok (g a)` then the loop returns the mapped list. -/
theorem mapM_ok {α β ε : Type} (f : α → Except ε β) (g : α → β)
    (l : List α) (h : ∀ a ∈ l, f a = .ok (g a)) :
    l.mapM f = .ok (l.map g) := by
  induction l with
  | nil => rfl
  | cons a l ih =>
    rw [List.mapM_cons, h a (List.mem_cons_self a l),
        ih (fun b hb => h b (List.mem_cons_of_mem a hb))]
    rfl

/-- Updating one key leaves lookups of other keys unchanged. -/
theorem lookupA_setKV_ne {α : Type} (l : List (String × α)) (k k2 : String)
    (v : α) (hne : k ≠ k2) : lookupA (setKV l k2 v) k = lookupA l k := by
  unfold setKV lookupA
  split
  · have hfp : ((fun kv : String × α => kv.1 == k) ∘
        (fun kv => if kv.1 == k2 then (k2, v) else kv)) =
        (fun kv : String × α => kv.1 == k) := by
      funext kv
      by_cases hkv : kv.1 = k2
      · simp [hkv, Ne.symm hne]
      · simp [hkv]
    rw [List.find?_map, hfp]
    cases hfind : l.find? (fun kv => kv.1 == k) with
    | none => simp
    | some e =>
      have he : e.1 = k := by simpa using List.find?_some hfind
      have hb : (e.1 == k2) = false :=
        beq_eq_false_iff_ne.mpr (by rw [he]; exact hne)
      simp only [Option.map_map]
      show some ((if (e.1 == k2) = true then (k2, v) else e).2) = some e.2
      rw [hb]
      simp
  · rw [List.find?_append]
    cases l.find? (fun kv => kv.1 == k) <;> simp [Ne.symm hne]

/-- Merging overrides that avoid a key leaves that key's lookup unchanged. -/
theorem lookupA_mergeKw_notin (base : List (String × AttrV))
    (kwargs : List (String × AttrV)) (k : String)
    (h : ∀ kv ∈ kwargs, kv.1 ≠ k) :
    lookupA (mergeKw base kwargs) k = lookupA base k := by
  induction kwargs generalizing base with
  | nil => rfl
  | cons kv kws ih =>
    have hstep : mergeKw base (kv :: kws) = mergeKw (setKV base kv.1 kv.2) kws := rfl
    rw [hstep, ih (setKV base kv.1 kv.2)
          (fun b hb => h b (List.mem_cons_of_mem kv hb)),
        lookupA_setKV_ne base k kv.1 kv.2
          (Ne.symm (h kv (List.mem_cons_self kv kws)))]

/-- Every cell of a freshly created unwritten variable holds the fill. -/
theorem mem_elems_initFill (sizes : List ℕ) (f x : ℚ)
    (h : x ∈ (initFill sizes f).elems) : x = f := by
  match sizes with
  | [] =>
    simp [initFill, Arr.elems] at h
    exact h
  | [s] =>
    simp [initFill, Arr.elems, List.mem_replicate] at h
    tauto
  | s0 :: s1 :: rest =>
    simp [initFill, Arr.elems, List.mem_replicate] at h
    tauto

/-- Zipping ignores the tail of the longer right list. -/
theorem zip_take_right {α β : Type} (l1 : List α) (l2 : List β) :
    l1.zip l2 = l1.zip (l2.take l1.length) := by
  induction l1 generalizing l2 with
  | nil => rfl
  | cons a l ih =>
    cases l2 with
    | nil => rfl
    | cons b l2 =>
      simp only [List.zip_cons_cons, List.length_cons, List.take_succ_cons]
      rw [← ih]

/-- In-range `get?` through `getD`. -/
theorem get?_eq_getD {α : Type} (l : List α) (i : ℕ) (d : α)
    (h : i < l.length) : l.get? i = some (l.getD i d) := by
  rw [List.get?_eq_get h, List.getD_eq_getElem?_getD,
      List.getElem?_eq_getElem h]
  simp [List.get_eq_getElem]

/-- The left components of a zip are the left list truncated to the right
list's length. -/
theorem map_fst_zip_eq_take {α β : Type} (l1 : List α) (l2 : List β) :
    (l1.zip l2).map Prod.fst = l1.take l2.length := by
  induction l1 generalizing l2 with
  | nil => simp
  | cons a l ih =>
    cases l2 with
    | nil => simp
    | cons b l2 =>
      simp only [List.zip_cons_cons, List.map_cons, List.length_cons,
        List.take_succ_cons]
      rw [ih]

/-- The right components of a zip are the right list truncated to the left
list's length. -/
theorem map_snd_zip_eq_take {α β : Type} (l1 : List α) (l2 : List β) :
    (l1.zip l2).map Prod.snd = l2.take l1.length := by
  induction l1 generalizing l2 with
  | nil => simp
  | cons a l ih =>
    cases l2 with
    | nil => simp
    | cons b l2 =>
      simp only [List.zip_cons_cons, List.map_cons, List.length_cons,
        List.take_succ_cons]
      rw [ih]

/-! ## Claim theorems -/

/-- C4: the projection stride is exactly 200 when the `lon` series' leading
axis is longer than 1000 samples and exactly 1 otherwise; `n = 500` gives
stride 1, and `n = 1500` gives stride 200 with `ceil(1500/200) = 8` strided
samples before masking. -/
theorem stride_law (nc : NCFile) (lonA : Arr (Option ℚ))
    (h : nc.lonV = some lonA) :
    (1000 < lonA.shape0 → get_stride nc = .ok 200) ∧
    (lonA.shape0 ≤ 1000 → get_stride nc = .ok 1) ∧
    (lonA.shape0 = 500 → get_stride nc = .ok 1) ∧
    (∀ ls : List (Option ℚ), lonA = .one ls → ls.length = 1500 →
      get_stride nc = .ok 200 ∧ (everyNth ls 200).length = 8) := by
  refine ⟨?_, ?_, ?_, ?_⟩
  · intro hn
    simp [get_stride, h, strideFor, hn]
  · intro hn
    simp [get_stride, h, strideFor, Nat.not_lt.mpr hn]
  · intro hn
    simp [get_stride, h, strideFor, hn]
  · intro ls hone hlen
    subst hone
    refine ⟨?_, ?_⟩
    · have hgt : (1000 : ℕ) < (Arr.one ls).shape0 := by
        rw [show (Arr.one ls).shape0 = ls.length from rfl, hlen]
        omega
      simp only [get_stride, h]
      rw [strideFor, if_pos hgt]
    · rw [everyNth_length ls 200 (by omega), hlen]

/-- C4 witness: a concrete 1500-sample container gets stride 200 and 8
strided samples. -/
theorem stride_law_witness :
    get_stride nc1500 = .ok 200 ∧
    (everyNth (List.replicate 1500 (some 20 : Option ℚ)) 200).length = 8 :=
  (stride_law nc1500 (.one (List.replicate 1500 (some 20))) rfl).2.2.2
    (List.replicate 1500 (some 20)) rfl (by rw [List.length_replicate])

/-- C7 counterexample: a container holding both `ocean_time` and `time`
resolves the canonical time name to `time`, not to the model-time name
`ocean_time` the claim says is preferred. -/
theorem time_name_preference_cex :
    resolveTimeName ncBoth = some "time" ∧
    resolveTimeName ncBoth ≠ some "ocean_time" := by
  refine ⟨rfl, ?_⟩
  decide

/-- C7 amended: the resolver prefers the generic name `time`, falling back
to `ocean_time` only when `time` is absent; when neither exists the
coverage query returns `(None, None)` without failing; a missing `lon` (or
`lat`, for a 1-D `lon`) surfaces as a missing-variable error of the
projector. -/
theorem time_name_resolution_amended (nc : NCFile) (tfmt : ℚ → String)
    (stride : ℕ) :
    (nc.timeV.isSome = true → resolveTimeName nc = some "time") ∧
    (nc.timeV = none → nc.oceanTimeV.isSome = true →
      resolveTimeName nc = some "ocean_time") ∧
    (nc.timeV = none → nc.oceanTimeV = none →
      resolveTimeName nc = none ∧
      get_time_coverage tfmt nc stride = (none, none)) ∧
    (nc.lonV = none → geojson tfmt nc = .error (.missingVariable "lon")) ∧
    (∀ xs, nc.lonV = some (.one xs) → nc.latV = none →
      geojson tfmt nc = .error (.missingVariable "lat")) := by
  refine ⟨?_, ?_, ?_, ?_, ?_⟩
  · intro ht
    simp [resolveTimeName, ht]
  · intro ht ho
    simp [resolveTimeName, ht, ho]
  · intro ht ho
    simp [resolveTimeName, get_time_coverage, ht, ho]
  · intro hlon
    simp only [geojson, get_stride, hlon]
    rfl
  · intro xs hlon hlat
    simp only [geojson, get_stride, hlon, hlat]
    rfl

/-- C7 amended witness: applying the resolution rule to the concrete
two-time-variable container. -/
theorem time_name_resolution_amended_witness :
    resolveTimeName ncBoth = some "time" :=
  (time_name_resolution_amended ncBoth fmt0 1).1 (by decide)

/-- C2 counterexample: a write whose `depth` array length disagrees with
`len(timedata)` does fail with the shape mismatch, but only after the
destination container object was created — the failing call leaves a
partial artifact, contradicting the claim. -/
theorem writer_partial_artifact_cex :
    (writer_0_0 fmt0 "" argsBad).result = .error .ShapeMismatch ∧
    (writer_0_0 fmt0 "" argsBad).artifactCreated = true :=
  ⟨rfl, rfl⟩

/-- C2 amended: a first-axis mismatch among the eight required time-class
arrays (plus any supplied QC array) against `len(timedata)`, or among the
four uv arrays against `len(time_uvdata)`, aborts the write with
ShapeMismatch and commits nothing — but `Dataset(filename, 'w')` has
already created (and truncated) the destination before the validation runs,
so a failing call does leave a partial artifact at the destination. -/
theorem writer_shape_mismatch_amended (fmt : ℚ → String) (now : String)
    (a : WriterArgs) :
    (writer_0_0 fmt now a).artifactCreated = true ∧
    (shapesOk a = false →
      (writer_0_0 fmt now a).result = .error .ShapeMismatch) ∧
    (shapesOk a = true →
      (writer_0_0 fmt now a).result = .ok (buildContainer fmt now a)) := by
  refine ⟨?_, ?_, ?_⟩
  · rw [writer_0_0]
    split <;> rfl
  · intro h
    simp [writer_0_0, h]
  · intro h
    simp [writer_0_0, h]

/-- C2 amended witness: the concrete mismatched call errors while the
artifact flag is set. -/
theorem writer_shape_mismatch_amended_witness :
    (writer_0_0 fmt0 "" argsBad).result = .error .ShapeMismatch ∧
    (writer_0_0 fmt0 "" argsBad).artifactCreated = true :=
  ⟨(writer_shape_mismatch_amended fmt0 "" argsBad).2.1 (by decide),
   (writer_shape_mismatch_amended fmt0 "" argsBad).1⟩

/-- C10: the writer never validates the second (trajectory) axis: a call
whose 2-D `depth` array has one trajectory column against a declared
trajectory count of two passes every assert and commits. -/
theorem second_axis_unvalidated :
    shapesOk args10 = true ∧
    args10.depthdata.shape1 = some 1 ∧
    args10.trajectorydata.length = 2 ∧
    (writer_0_0 fmt0 "" args10).result = .ok (buildContainer fmt0 "" args10) :=
  ⟨by decide, by decide, by decide, rfl⟩

/-- C9: when the overrides do not touch the coverage keys, the committed
global attributes hold `time_coverage_end` formatted from the FIRST element
of `timedata` and `time_coverage_start` formatted from the LAST — the two
attributes take opposite ends of the time series. -/
theorem writer_time_coverage_swapped (fmt : ℚ → String) (now : String)
    (a : WriterArgs) (c : NCContainerW)
    (hok : (writer_0_0 fmt now a).result = .ok c)
    (_hne : a.timedata ≠ [])
    (hkw : ∀ kv ∈ a.kwargs,
      kv.1 ≠ "time_coverage_start" ∧ kv.1 ≠ "time_coverage_end") :
    lookupA c.gattrs "time_coverage_end"
      = some (.str (fmt (a.timedata.headD 0))) ∧
    lookupA c.gattrs "time_coverage_start"
      = some (.str (fmt (a.timedata.getLastD 0))) := by
  rw [writer_0_0] at hok
  split at hok
  · have hc : c = buildContainer fmt now a := by
      cases hok
      rfl
    subst hc
    have hg : (buildContainer fmt now a).gattrs
        = mergeKw (globalAttributesBase fmt now a) a.kwargs := rfl
    rw [hg]
    refine ⟨?_, ?_⟩
    · rw [lookupA_mergeKw_notin _ _ _ (fun kv hkv => (hkw kv hkv).2)]
      rfl
    · rw [lookupA_mergeKw_notin _ _ _ (fun kv hkv => (hkw kv hkv).1)]
      rfl
  · exact absurd hok (by simp)

/-- C9 witness: writing `timedata = [0, 7]` puts the formatted `0` in
`time_coverage_end` and the formatted `7` in `time_coverage_start`. -/
theorem writer_time_coverage_swapped_witness :
    lookupA (buildContainer fmt0 "" args9).gattrs "time_coverage_end"
      = some (.str (fmt0 0)) ∧
    lookupA (buildContainer fmt0 "" args9).gattrs "time_coverage_start"
      = some (.str (fmt0 7)) :=
  writer_time_coverage_swapped fmt0 "" args9 (buildContainer fmt0 "" args9)
    rfl (by decide) (by simp [args9, sampleArgs])

/-- C8: a container whose global attributes already declare both
`time_coverage_start` and `time_coverage_end` keeps them: the read path's
property set is exactly the stored attributes, independent of the time
formatter and stride (no derived first/last-strided-sample value replaces a
declared one, and the stored attributes are not mutated). -/
theorem declared_coverage_preserved (tfmt tfmt2 : ℚ → String) (nc : NCFile)
    (stride stride2 : ℕ)
    (h1 : hasKey nc.attrs "time_coverage_start" = true)
    (h2 : hasKey nc.attrs "time_coverage_end" = true) :
    propsOf tfmt nc stride = nc.attrs.map (fun kv => (kv.1, some kv.2)) ∧
    propsOf tfmt nc stride = propsOf tfmt2 nc stride2 := by
  have hkeep : ∀ (f : ℚ → String) (s : ℕ),
      propsOf f nc s = nc.attrs.map (fun kv => (kv.1, some kv.2)) := by
    intro f s
    rw [propsOf]
    have hmap : ∀ (l : List (String × String)) (k : String),
        hasKey (l.map (fun kv => (kv.1, some kv.2))) k = hasKey l k := by
      intro l k
      induction l with
      | nil => rfl
      | cons kv l ih =>
        simp only [List.map_cons, hasKey, List.any_cons] at ih ⊢
        rw [ih]
    rw [hmap _ "time_coverage_start", hmap _ "time_coverage_end", h1, h2]
    rfl
  exact ⟨hkeep tfmt stride, (hkeep tfmt stride).trans (hkeep tfmt2 stride2).symm⟩

/-- C8 witness: a concrete container declaring both coverage strings keeps
them verbatim for two different formatters and strides. -/
theorem declared_coverage_preserved_witness :
    propsOf fmt0 nc8 1 = nc8.attrs.map (fun kv => (kv.1, some kv.2)) ∧
    propsOf fmt0 nc8 1 = propsOf (fun q => toString q) nc8 200 :=
  declared_coverage_preserved fmt0 (fun q => toString q) nc8 1 200
    (by decide) (by decide)

/-- A QC variable stores a supplied array verbatim; created with the int8
fill and left unwritten, it reads back as all `fillI1`, never 0. -/
theorem mkVar_qc_spec (name : String) (dims : List String) (sizes : List ℕ)
    (data : Option (Arr ℚ)) :
    (data = none →
      ∀ x ∈ (mkVar name dims sizes (some fillI1) fillI1 data).content.elems,
        x = fillI1 ∧ x ≠ 0) ∧
    (∀ arr, data = some arr →
      (mkVar name dims sizes (some fillI1) fillI1 data).content = arr) := by
  constructor
  · intro h x hx
    subst h
    simp only [mkVar, Option.getD_none] at hx
    have hfx := mem_elems_initFill sizes fillI1 x hx
    refine ⟨hfx, ?_⟩
    rw [hfx, fillI1]
    norm_num
  · intro arr h
    subst h
    rfl

/-- C3: in every committed container, a QC variable whose input array was
omitted holds the int8 fill sentinel in every cell (never 0), and one whose
input was supplied stores it as given. -/
theorem qc_omitted_fill (fmt : ℚ → String) (now : String) (a : WriterArgs)
    (c : NCContainerW) (hok : (writer_0_0 fmt now a).result = .ok c)
    (v : NCVar) (hv : v ∈ c.vars) (hq : v.name ∈ qcNames) :
    (qcInput a v.name = none → ∀ x ∈ v.content.elems, x = fillI1 ∧ x ≠ 0) ∧
    (∀ arr, qcInput a v.name = some arr → v.content = arr) := by
  rw [writer_0_0] at hok
  split at hok
  · have hc : c = buildContainer fmt now a := by
      cases hok
      rfl
    subst hc
    simp only [buildContainer, List.mem_cons, List.not_mem_nil, or_false] at hv
    rcases hv with rfl|rfl|rfl|rfl|rfl|rfl|rfl|rfl|rfl|rfl|rfl|rfl|rfl|rfl|rfl|rfl|rfl|rfl|rfl|rfl|rfl|rfl|rfl|rfl|rfl|rfl|rfl|rfl|rfl|rfl
    all_goals first
      | exact mkVar_qc_spec _ _ _ _
      | exact absurd hq (by simp [mkVar, qcNames])
  · exact absurd hok (by simp)

/-- C3 witness: omitted `depth_qcdata` in the sample write yields a
`depth_qc` variable whose every cell is the int8 fill. -/
theorem qc_omitted_fill_witness :
    (qcInput sampleArgs depthQcVarSample.name = none →
      ∀ x ∈ depthQcVarSample.content.elems, x = fillI1 ∧ x ≠ 0) ∧
    (∀ arr, qcInput sampleArgs depthQcVarSample.name = some arr →
      depthQcVarSample.content = arr) :=
  qc_omitted_fill fmt0 "" sampleArgs (buildContainer fmt0 "" sampleArgs) rfl
    depthQcVarSample
    (List.Mem.tail _ (List.Mem.tail _ (List.Mem.tail _ (List.Mem.tail _
      (List.Mem.tail _ (List.Mem.tail _ (List.Mem.tail _ (List.Mem.head _))))))))
    (by decide)

/-- The declared shape of a variable carrying `dim_tuple`, through the
container's dimension sizes. -/
theorem varShape_time_rule (l t luv : ℕ) (c : NCContainerW)
    (hc : c.dims = [("time", l), ("trajectory", t), ("time_uv", luv)])
    (v : NCVar) (hd : v.dims = dimTupleOf t) :
    varShape c v = sizesTime l t := by
  rw [varShape, hd, hc, dimTupleOf, sizesTime]
  split <;> simp

/-- The declared shape of a variable carrying `uv_tuple`. -/
theorem varShape_uv_rule (l t luv : ℕ) (c : NCContainerW)
    (hc : c.dims = [("time", l), ("trajectory", t), ("time_uv", luv)])
    (v : NCVar) (hd : v.dims = uvTupleOf t) :
    varShape c v = sizesUv luv t := by
  rw [varShape, hd, hc, uvTupleOf, sizesUv]
  split <;> simp

/-- C5: one dimension layout per container: every time-class variable is
created over `dim_tuple` and reports shape `sizesTime L T`, every
time_uv-class variable over `uv_tuple` with shape `sizesUv Luv T`; the
tuple is `(time)` with shape `(L,)` for trajectory count 1, and
`(time, trajectory)` with shape `(L, T)` for `T > 1` (time_uv alike). -/
theorem dims_layout (fmt : ℚ → String) (now : String) (a : WriterArgs)
    (c : NCContainerW) (hok : (writer_0_0 fmt now a).result = .ok c)
    (v : NCVar) (hv : v ∈ c.vars) :
    ((a.trajectorydata.length = 1 →
        dimTupleOf a.trajectorydata.length = ["time"] ∧
        sizesTime a.timedata.length a.trajectorydata.length
          = [a.timedata.length] ∧
        uvTupleOf a.trajectorydata.length = ["time_uv"] ∧
        sizesUv a.time_uvdata.length a.trajectorydata.length
          = [a.time_uvdata.length]) ∧
     (1 < a.trajectorydata.length →
        dimTupleOf a.trajectorydata.length = ["time", "trajectory"] ∧
        sizesTime a.timedata.length a.trajectorydata.length
          = [a.timedata.length, a.trajectorydata.length] ∧
        uvTupleOf a.trajectorydata.length = ["time_uv", "trajectory"] ∧
        sizesUv a.time_uvdata.length a.trajectorydata.length
          = [a.time_uvdata.length, a.trajectorydata.length])) ∧
    (v.name ∈ timeClassNames →
        v.dims = dimTupleOf a.trajectorydata.length ∧
        varShape c v = sizesTime a.timedata.length a.trajectorydata.length) ∧
    (v.name ∈ uvClassNames →
        v.dims = uvTupleOf a.trajectorydata.length ∧
        varShape c v = sizesUv a.time_uvdata.length a.trajectorydata.length) := by
  rw [writer_0_0] at hok
  split at hok
  · have hc : c = buildContainer fmt now a := by
      cases hok
      rfl
    subst hc
    refine ⟨⟨?_, ?_⟩, ?_⟩
    · intro h1
      simp [dimTupleOf, sizesTime, uvTupleOf, sizesUv, h1]
    · intro h2
      simp [dimTupleOf, sizesTime, uvTupleOf, sizesUv, h2]
    · simp only [buildContainer, List.mem_cons, List.not_mem_nil, or_false] at hv
      rcases hv with rfl|rfl|rfl|rfl|rfl|rfl|rfl|rfl|rfl|rfl|rfl|rfl|rfl|rfl|rfl|rfl|rfl|rfl|rfl|rfl|rfl|rfl|rfl|rfl|rfl|rfl|rfl|rfl|rfl|rfl
      all_goals first
        | exact ⟨fun _ => ⟨rfl, varShape_time_rule _ _ _ _ rfl _ rfl⟩,
                 fun h => absurd h (by simp [mkVar, uvClassNames])⟩
        | exact ⟨fun h => absurd h (by simp [mkVar, timeClassNames]),
                 fun _ => ⟨rfl, varShape_uv_rule _ _ _ _ rfl _ rfl⟩⟩
        | exact ⟨fun h => absurd h (by simp [mkVar, timeClassNames]),
                 fun h => absurd h (by simp [mkVar, uvClassNames])⟩
  · exact absurd hok (by simp)

/-- C5 witness: the sample single-trajectory write creates `depth` over
`(time)` with shape `(1,)`. -/
theorem dims_layout_witness :
    depthVarSample.dims = dimTupleOf sampleArgs.trajectorydata.length ∧
    varShape (buildContainer fmt0 "" sampleArgs) depthVarSample
      = sizesTime sampleArgs.timedata.length sampleArgs.trajectorydata.length :=
  ((dims_layout fmt0 "" sampleArgs (buildContainer fmt0 "" sampleArgs) rfl
    depthVarSample
    (List.Mem.tail _ (List.Mem.tail _ (List.Mem.tail _ (List.Mem.tail _
      (List.Mem.tail _ (List.Mem.tail _ (List.Mem.head _)))))))).2.1) (by decide)

/-- C1 counterexample: projecting `lon = [10, 20, 1500, 30]` with
`lat = [1, 2, 3, 4]` does drop the sentinel and keep `[10, 20, 30]` in
order, but the surviving longitude `30` (time index 3) is paired with
latitude `3` (time index 2), not with its own time index's latitude `4` —
the 1-D branch filters the two series independently and zips them
positionally. -/
theorem geojson_1d_pairing_cex :
    geojson fmt0 nc1 = .ok (.single ⟨.attrId none,
      [(10, 1), (20, 2), (30, 3)],
      [("time_coverage_start", none), ("time_coverage_end", none)]⟩) ∧
    ((30 : ℚ), (3 : ℚ)) ∈ [((10 : ℚ), (1 : ℚ)), (20, 2), (30, 3)] ∧
    ((30 : ℚ), (4 : ℚ)) ∉ [((10 : ℚ), (1 : ℚ)), (20, 2), (30, 3)] :=
  ⟨rfl, by decide, by decide⟩

/-- C1 amended: for every 1-D container, the projected geometry is exactly
`zip(lon.data[lon < 1000], lat.data[lat < 1000])` over the strided series:
the longitude and latitude series are filtered INDEPENDENTLY by
`value < 1000` (a masked cell reads the float64 fill and drops; a negative
value of magnitude >= 1000 is kept), then zipped positionally, truncating
to the shorter — so the k-th surviving longitude pairs with the k-th
surviving latitude, which is the latitude of the same time index only when
the two series drop at identical positions; each filtered series preserves
relative order.  Concretely, `lon = [10, 20, 30]` with `lat = [1, masked,
3]` projects to `[(10, 1), (20, 3)]`: the masked latitude drops, `20`
pairs with the latitude of time index 2, and `30` is truncated away. -/
theorem geojson_1d_amended (tfmt : ℚ → String)
    (attrs : List (String × String)) (ls vs : List (Option ℚ))
    (tv t1 t2 : Option (List ℚ)) :
    geojson tfmt ⟨attrs, some (.one ls), some (.one vs), tv, t1, t2⟩
      = .ok (.single
          ⟨.attrId ((lookupA (propsOf tfmt
              ⟨attrs, some (.one ls), some (.one vs), tv, t1, t2⟩
              (strideFor ls.length)) "id").getD none),
           (((everyNth ls (strideFor ls.length)).map dataVal).filter
               (fun x => x < 1000)).zip
             (((everyNth vs (strideFor ls.length)).map dataVal).filter
               (fun x => x < 1000)),
           propsOf tfmt ⟨attrs, some (.one ls), some (.one vs), tv, t1, t2⟩
             (strideFor ls.length)⟩) ∧
    ((((everyNth ls (strideFor ls.length)).map dataVal).filter
        (fun x => x < 1000)).zip
      (((everyNth vs (strideFor ls.length)).map dataVal).filter
        (fun x => x < 1000))).map Prod.fst
      = (((everyNth ls (strideFor ls.length)).map dataVal).filter
          (fun x => x < 1000)).take
        ((((everyNth vs (strideFor ls.length)).map dataVal).filter
          (fun x => x < 1000)).length) ∧
    ((((everyNth ls (strideFor ls.length)).map dataVal).filter
        (fun x => x < 1000)).zip
      (((everyNth vs (strideFor ls.length)).map dataVal).filter
        (fun x => x < 1000))).map Prod.snd
      = (((everyNth vs (strideFor ls.length)).map dataVal).filter
          (fun x => x < 1000)).take
        ((((everyNth ls (strideFor ls.length)).map dataVal).filter
          (fun x => x < 1000)).length) ∧
    (((everyNth ls (strideFor ls.length)).map dataVal).filter
        (fun x => x < 1000)).Sublist
      ((everyNth ls (strideFor ls.length)).map dataVal) ∧
    (((everyNth vs (strideFor ls.length)).map dataVal).filter
        (fun x => x < 1000)).Sublist
      ((everyNth vs (strideFor ls.length)).map dataVal) ∧
    geojson fmt0 nc1x = .ok (.single ⟨.attrId none,
      [(10, 1), (20, 3)],
      [("time_coverage_start", none), ("time_coverage_end", none)]⟩) :=
  ⟨rfl, map_fst_zip_eq_take _ _, map_snd_zip_eq_take _ _,
   List.filter_sublist _, List.filter_sublist _, rfl⟩

/-- C6: a 2-D container with `T` trajectory columns projects to exactly `T`
line features; the `i`-th feature's id is the `i`-th entry of the
`trajectory` variable when that variable is present and the column index
`i` otherwise, and its coordinates are the column's strided,
lon-mask/sentinel-filtered `(lon, lat)` pairs. -/
theorem multi_trajectory_features (tfmt : ℚ → String)
    (attrs : List (String × String)) (n m : ℕ)
    (cols lcols : List (List (Option ℚ))) (tv t1 t2 : Option (List ℚ))
    (hlc : cols.length ≤ lcols.length)
    (htr : ∀ tr, tv = some tr → cols.length ≤ tr.length) :
    ∃ fs, geojson tfmt ⟨attrs, some (.two n cols), some (.two m lcols),
        tv, t1, t2⟩ = .ok (.collection fs) ∧
      fs.length = cols.length ∧
      ∀ i, i < cols.length →
        (fs.getD i default).geometry
          = maskCoords (everyNth (cols.getD i []) (strideFor n))
              ((everyNth (lcols.getD i []) (strideFor n)).map dataVal) ∧
        (tv = none → (fs.getD i default).fid = .colId i) ∧
        (∀ tr, tv = some tr →
          (fs.getD i default).fid = .trajId (tr.getD i 0)) := by
  have hbody : ∀ i ∈ List.range cols.length,
      featureForCol tfmt ⟨attrs, some (.two n cols), some (.two m lcols),
          tv, t1, t2⟩ (strideFor n) i
        = .ok ⟨colFeatId tv i,
          maskCoords (everyNth (cols.getD i []) (strideFor n))
            ((everyNth (lcols.getD i []) (strideFor n)).map dataVal),
          propsOf tfmt ⟨attrs, some (.two n cols), some (.two m lcols),
            tv, t1, t2⟩ (strideFor n)⟩ := by
    intro i hi
    rw [List.mem_range] at hi
    have h1 : cols.get? i = some (cols.getD i []) := get?_eq_getD _ _ _ hi
    have h2 : lcols.get? i = some (lcols.getD i []) :=
      get?_eq_getD _ _ _ (lt_of_lt_of_le hi hlc)
    cases tv with
    | none =>
      simp only [featureForCol, Arr.col, pure_bind, h1, h2]
      rfl
    | some tr =>
      have h3 : tr.get? i = some (tr.getD i 0) :=
        get?_eq_getD _ _ _ (lt_of_lt_of_le hi (htr tr rfl))
      simp only [featureForCol, Arr.col, pure_bind, h1, h2, h3]
      rfl
  have hm := mapM_ok
    (featureForCol tfmt ⟨attrs, some (.two n cols), some (.two m lcols),
      tv, t1, t2⟩ (strideFor n)) _ (List.range cols.length) hbody
  refine ⟨(List.range cols.length).map (fun i =>
      (⟨colFeatId tv i,
        maskCoords (everyNth (cols.getD i []) (strideFor n))
          ((everyNth (lcols.getD i []) (strideFor n)).map dataVal),
        propsOf tfmt ⟨attrs, some (.two n cols), some (.two m lcols),
          tv, t1, t2⟩ (strideFor n)⟩ : Feat)), ?_, ?_, ?_⟩
  · have hgeo : geojson tfmt ⟨attrs, some (.two n cols),
        some (.two m lcols), tv, t1, t2⟩
        = ((List.range cols.length).mapM
            (featureForCol tfmt ⟨attrs, some (.two n cols),
              some (.two m lcols), tv, t1, t2⟩ (strideFor n)))
          >>= (fun fs => pure (GeoOut.collection fs)) := rfl
    rw [hgeo, hm]
    rfl
  · rw [List.length_map, List.length_range]
  · intro i hi
    have hfs : ((List.range cols.length).map (fun i =>
        (⟨colFeatId tv i,
          maskCoords (everyNth (cols.getD i []) (strideFor n))
            ((everyNth (lcols.getD i []) (strideFor n)).map dataVal),
          propsOf tfmt ⟨attrs, some (.two n cols), some (.two m lcols),
            tv, t1, t2⟩ (strideFor n)⟩ : Feat))).getD i default
        = ⟨colFeatId tv i,
          maskCoords (everyNth (cols.getD i []) (strideFor n))
            ((everyNth (lcols.getD i []) (strideFor n)).map dataVal),
          propsOf tfmt ⟨attrs, some (.two n cols), some (.two m lcols),
            tv, t1, t2⟩ (strideFor n)⟩ := by
      rw [List.getD_eq_getElem?_getD,
          List.getElem?_eq_getElem (by
            rw [List.length_map, List.length_range]
            exact hi),
          List.getElem_map, List.getElem_range]
      rfl
    rw [hfs]
    refine ⟨rfl, ?_, ?_⟩
    · intro h
      subst h
      rfl
    · intro tr h
      subst h
      rfl

/-- C6 witness: the concrete two-column container emits two features with
ids `41` and `42` and the per-column masked coordinates. -/
theorem multi_trajectory_features_witness :
    ∃ fs, geojson fmt0 nc6 = .ok (.collection fs) ∧
      fs.length = [[some 1, some 1500], [some 2, none]].length ∧
      ∀ i, i < [[some 1, some 1500], [some 2, none]].length →
        (fs.getD i default).geometry
          = maskCoords (everyNth ([[some 1, some 1500],
              [some 2, none]].getD i []) (strideFor 2))
              ((everyNth ([[some 5, some 6], [some 7, some 8]].getD i [])
                (strideFor 2)).map dataVal) ∧
        ((some [41, 42] : Option (List ℚ)) = none →
          (fs.getD i default).fid = .colId i) ∧
        (∀ tr, (some [41, 42] : Option (List ℚ)) = some tr →
          (fs.getD i default).fid = .trajId (tr.getD i 0)) :=
  multi_trajectory_features fmt0 [] 2 2
    [[some 1, some 1500], [some 2, none]] [[some 5, some 6], [some 7, some 8]]
    (some [41, 42]) none none (by decide)
    (fun tr htr => by
      cases htr
      decide)

end IoosGlider
